import Mathlib

/-!
# Verification of the NexusClaw AVP protocol engine

Shallow embedding of the AVP (Agent Vault Protocol) command processor
implemented in `src/avp` (`avp.c` / `avp.h`, reproduced inside
`avp_tropic.h` in this source drop).

Modelling conventions:

* All C `uint32_t` / `uint8_t` values are `Nat`s; where C overflow is
  reachable the reduction `% 4294967296` (for `uint32_t`) or `% 256`
  (for `uint8_t`) is written explicitly (session expiry addition, the
  `pin_attempts` and `secret_count` counters).
* The context's function pointers `get_time` and `random_bytes` are
  modelled by passing the clock value `now` (the `uint32_t` seconds the
  backend clock returns while the request is serviced) and the RNG byte
  stream `rand` into each operation explicitly.
* C strings are Lean `String`s.  The `strncpy` truncations of the source
  are kept (`strTrunc`).
* The minimal substring-based JSON reader (`json_find_string` /
  `json_find_int`) is abstracted by a `JsonFields` record holding, for
  each recognized key, the result the extraction helper returns:
  `none` models both an absent key and a non-string (resp. non-integer)
  value, exactly the cases in which the C helpers return NULL / -1.
  The buffer-size truncations applied by those helpers are applied where
  the C code performs the copies.
* The secure-element backend (libtropic) is never called by the engine
  in the source: the slot-I/O calls are commented out (`TODO`) and the
  PIN check is the inlined placeholder `strlen(pin) < 4`.  The embedding
  reproduces exactly what the engine does, placeholders included.
* Responses are modelled up to the `avp_resp_t` structure (the JSON
  formatter `avp_format_resp` is a projection of that structure and is
  not needed by any claim).
-/

namespace AVP

/-! ## Constants (avp.h) -/

def AVP_MAX_NAME_LEN : Nat := 64
def AVP_MAX_VALUE_LEN : Nat := 512
def AVP_MAX_SECRETS : Nat := 32
def AVP_DEFAULT_TTL : Nat := 300
def AVP_SESSION_ID_LEN : Nat := 32
def AVP_MAX_PIN_ATTEMPTS : Nat := 5
def SLOT_SECRETS_START : Nat := 96
def U32 : Nat := 4294967296

/-! ## Return codes (avp_ret_t) and opcodes (avp_op_t) -/

inductive RetCode where
  | AVP_OK
  | AVP_ERR_PARSE
  | AVP_ERR_INVALID_OP
  | AVP_ERR_INVALID_PARAM
  | AVP_ERR_NOT_AUTHENTICATED
  | AVP_ERR_SESSION_EXPIRED
  | AVP_ERR_SECRET_NOT_FOUND
  | AVP_ERR_CAPACITY
  | AVP_ERR_HARDWARE
  | AVP_ERR_CRYPTO
  | AVP_ERR_PIN_INVALID
  | AVP_ERR_PIN_LOCKED
  | AVP_ERR_INTERNAL
  deriving DecidableEq, Repr

inductive OpCode where
  | UNKNOWN
  | DISCOVER
  | AUTHENTICATE
  | STORE
  | RETRIEVE
  | DELETE
  | LIST
  | ROTATE
  | HW_CHALLENGE
  | HW_SIGN
  | HW_ATTEST
  deriving DecidableEq, Repr

/-! ## Small helpers shared with the C helper functions -/

/-- `strncpy`-style truncation to at most `n` characters. -/
def strTrunc (n : Nat) (s : String) : String :=
  String.mk (s.toList.take n)

/-- Character of a hex nibble, from the table `"0123456789abcdef"`. -/
def hexDigitChar (n : Nat) : Char :=
  if n < 10 then Char.ofNat (48 + n) else Char.ofNat (87 + n)

/-- `hex_encode`: each byte becomes two lowercase hex characters
(`data[i] >> 4` and `data[i] & 0x0F`). -/
def hex_encode (data : List Nat) : String :=
  String.mk (data.flatMap (fun b => [hexDigitChar ((b / 16) % 16), hexDigitChar (b % 16)]))

/-- The whitespace characters `sscanf` skips before a `%x` conversion. -/
def isSpaceB (c : Char) : Bool :=
  c == ' ' || c == '\t' || c == '\n' || c == '\r' ||
  c == Char.ofNat 11 || c == Char.ofNat 12

def isHexDigitB (c : Char) : Bool :=
  (decide (48 ≤ c.toNat) && decide (c.toNat ≤ 57)) ||
  (decide (97 ≤ c.toNat) && decide (c.toNat ≤ 102)) ||
  (decide (65 ≤ c.toNat) && decide (c.toNat ≤ 70))

def hexVal (c : Char) : Nat :=
  if decide (48 ≤ c.toNat) && decide (c.toNat ≤ 57) then c.toNat - 48
  else if decide (97 ≤ c.toNat) && decide (c.toNat ≤ 102) then c.toNat - 87
  else c.toNat - 55

/-- Model of `sscanf(p, "%2x", &byte)` on the NUL-terminated suffix `p`,
per ISO C's `%x` conversion with field width 2: skip whitespace (not
counted toward the width), then the input item is the longest sequence
of at most 2 characters that is, or is a prefix of, a matching
hexadecimal sequence — an optional sign, an optional `0x`/`0X` prefix,
hex digits.  The directive succeeds exactly when the item is itself a
matching sequence, i.e. holds at least one digit, and the value is that
of `strtoul` in `unsigned int` range: negated modulo `2^32` after a
minus sign (so `"-1"` scans to `0xffffffff`).  Within width 2 that
leaves: one or two digits; a sign followed by one digit; and the two
failure shapes, a bare sign and the digit-less item `"0x"`/`"0X"`
(each only a prefix of a matching sequence — a matching failure). -/
def sscanf_hex2 (s : List Char) : Option Nat :=
  match s.dropWhile isSpaceB with
  | [] => none
  | c1 :: rest =>
    if c1 == '+' || c1 == '-' then
      match rest with
      | c2 :: _ =>
        if isHexDigitB c2 then
          if c1 == '-' then some ((U32 - hexVal c2) % U32) else some (hexVal c2)
        else none
      | [] => none
    else if isHexDigitB c1 then
      match rest with
      | c2 :: _ =>
        if isHexDigitB c2 then some (hexVal c1 * 16 + hexVal c2)
        else if c1 == '0' && (c2 == 'x' || c2 == 'X') then none
        else some (hexVal c1)
      | [] => some (hexVal c1)
    else none

/-- The scanning loop of `hex_decode`: one `sscanf "%2x"` per character
pair, each reading from the suffix starting at its pair; each scanned
`unsigned int` is stored through the `(uint8_t)` cast of
`out[i] = (uint8_t)byte` (`% 256`). -/
def hex_decode_go : List Char → Option (List Nat)
  | [] => some []
  | c1 :: c2 :: rest =>
    match sscanf_hex2 (c1 :: c2 :: rest) with
    | none => none
    | some b =>
      match hex_decode_go rest with
      | none => none
      | some bs => some (b % 256 :: bs)
  | [_] => none

/-- `hex_decode(hex, out, max_len)`: fails (`-1`, modelled `none`) when the
length is odd, when `len/2 > max_len`, or when a pair does not scan. -/
def hex_decode (hex : String) (max_len : Nat) : Option (List Nat) :=
  let cs := hex.toList
  if cs.length % 2 ≠ 0 then none
  else if max_len < cs.length / 2 then none
  else hex_decode_go cs

/-- `generate_session_id`: 16 RNG bytes rendered as 32 lowercase hex
characters.  `rand` is the RNG byte stream supplied by the platform. -/
def generate_session_id (rand : List Nat) : String :=
  hex_encode (rand.take 16)

/-! ## Generic list helpers mirroring the C array loops -/

/-- First index satisfying `p` (the `for (i = 0; ...)` search loops). -/
def findIndex {α : Type} (p : α → Bool) : List α → Option Nat
  | [] => none
  | a :: t => if p a = true then some 0 else Option.map (fun n => n + 1) (findIndex p t)

/-- In-place update of one array cell (`ctx->secrets[idx].field = v`). -/
def listModify {α : Type} : List α → Nat → (α → α) → List α
  | [], _, _ => []
  | a :: t, 0, f => f a :: t
  | a :: t, n + 1, f => a :: listModify t n f

/-! ## Data structures (avp.h) -/

/-- `avp_secret_meta_t`. -/
structure SecretMeta where
  name : String
  slot_index : Nat
  created_at : Nat
  updated_at : Nat
  in_use : Bool
  deriving DecidableEq, Repr

/-- The all-zero record `memset` produces. -/
def SecretMeta.zero : SecretMeta :=
  { name := "", slot_index := 0, created_at := 0, updated_at := 0, in_use := false }

/-- `avp_session_t`. -/
structure Session where
  active : Bool
  session_id : String
  workspace : String
  created_at : Nat
  ttl : Nat
  pin_attempts : Nat
  deriving DecidableEq, Repr

/-- `avp_ctx_t` (the `tropic_handle` and the two function pointers are
modelled by the explicit `now` / `rand` arguments of the operations). -/
structure Ctx where
  session : Session
  secrets : List SecretMeta
  secret_count : Nat
  deriving DecidableEq, Repr

/-- `avp_cmd_t`. -/
structure Cmd where
  op : OpCode
  session_id : String
  workspace : String
  name : String
  value : String
  auth_method : String
  pin : String
  ttl : Nat
  key_name : String
  data : List Nat
  data_len : Nat
  deriving DecidableEq, Repr

/-- The structure the extraction helpers of the tolerant JSON reader
produce for one request: per recognized key, `none` models an absent key
or a value of the wrong shape (the C helper returns NULL / -1 there). -/
structure JsonFields where
  op : Option String
  session_id : Option String
  workspace : Option String
  name : Option String
  value : Option String
  auth_method : Option String
  pin : Option String
  key_name : Option String
  ttl : Option Nat
  requested_ttl : Option Nat
  data : Option String
  deriving DecidableEq, Repr

/-- `avp_resp_t.discover`. -/
structure DiscoverResp where
  version : String
  backend_type : String
  manufacturer : String
  model : String
  serial : String
  supports_hw_sign : Bool
  supports_hw_attest : Bool
  max_secrets : Nat
  max_secret_size : Nat
  deriving DecidableEq, Repr

/-- `avp_resp_t.auth`. -/
structure AuthResp where
  session_id : String
  expires_in : Nat
  workspace : String
  deriving DecidableEq, Repr

/-- `avp_resp_t` (the `list.count` field is the length of `list_names`). -/
structure Resp where
  ok : Bool
  error_code : RetCode
  error_msg : String
  discover : DiscoverResp
  auth : AuthResp
  retrieve_value : String
  list_names : List String
  hw_challenge_verified : Bool
  hw_challenge_model : String
  hw_challenge_serial : String
  hw_sign_signature : String
  hw_attest_attestation : String
  deriving DecidableEq, Repr

/-- The all-zero response `memset(&resp, 0, sizeof(resp))` produces. -/
def Resp.zero : Resp :=
  { ok := false,
    error_code := .AVP_OK,
    error_msg := "",
    discover :=
      { version := "", backend_type := "", manufacturer := "", model := "", serial := "",
        supports_hw_sign := false, supports_hw_attest := false,
        max_secrets := 0, max_secret_size := 0 },
    auth := { session_id := "", expires_in := 0, workspace := "" },
    retrieve_value := "",
    list_names := [],
    hw_challenge_verified := false,
    hw_challenge_model := "",
    hw_challenge_serial := "",
    hw_sign_signature := "",
    hw_attest_attestation := "" }

/-- Failure response: `resp->ok = false; resp->error_code = e;` on the
zeroed response record. -/
def errResp (e : RetCode) : Resp :=
  { Resp.zero with ok := false, error_code := e }

/-- Success response with no payload: `resp->ok = true;`. -/
def okResp : Resp :=
  { Resp.zero with ok := true }

/-! ## Context helpers (avp.c) -/

/-- `find_secret_by_name`: first slot that is in use and whose name
compares equal. -/
def find_secret_by_name (ctx : Ctx) (name : String) : Option Nat :=
  findIndex (fun s => s.in_use && s.name == name) ctx.secrets

/-- `find_free_slot`: first slot not in use. -/
def find_free_slot (ctx : Ctx) : Option Nat :=
  findIndex (fun s => !s.in_use) ctx.secrets

/-- `avp_init`: zeroed context with 32 empty secret slots. -/
def avp_init : Ctx :=
  { session :=
      { active := false, session_id := "", workspace := "",
        created_at := 0, ttl := 0, pin_attempts := 0 },
    secrets := List.replicate AVP_MAX_SECRETS SecretMeta.zero,
    secret_count := 0 }

/-- `avp_session_valid`: false when no session is active; on first
observed expiry (`now >= created_at + ttl`, `uint32_t` arithmetic) the
session is deactivated and false is returned.  Returns the flag together
with the (possibly deactivated) context. -/
def avp_session_valid (now : Nat) (ctx : Ctx) : Bool × Ctx :=
  if ctx.session.active = false then (false, ctx)
  else if (ctx.session.created_at + ctx.session.ttl) % U32 ≤ now then
    (false, { ctx with session := { ctx.session with active := false } })
  else (true, ctx)

/-- `avp_session_invalidate`. -/
def avp_session_invalidate (ctx : Ctx) : Ctx :=
  { ctx with session := { ctx.session with active := false, session_id := "" } }

/-! ## Operation handlers (avp.c)

Each handler receives the zeroed response of `avp_process` and returns
the updated context together with the response it filled in. -/

/-- `avp_op_discover`. -/
def avp_op_discover (ctx : Ctx) : Ctx × Resp :=
  (ctx,
   { Resp.zero with
     ok := true
     discover :=
       { version := "0.1.0", backend_type := "hardware",
         manufacturer := "AVP Protocol", model := "NexusClaw", serial := "NC00000001",
         supports_hw_sign := true, supports_hw_attest := true,
         max_secrets := AVP_MAX_SECRETS, max_secret_size := 256 } })

/-- `avp_op_authenticate`, with the PIN-acceptance test abstracted as a
parameter so that independence from it can be stated.  The source's test
is the inlined placeholder `strlen(cmd->pin) >= 4` (the commented-out
TROPIC01 verification); `avp_op_authenticate` instantiates the parameter
with exactly that test. -/
def avp_op_authenticate_with (pinAccept : String → Bool) (now : Nat) (rand : List Nat)
    (ctx : Ctx) (cmd : Cmd) : Ctx × Resp :=
  if AVP_MAX_PIN_ATTEMPTS ≤ ctx.session.pin_attempts then
    (ctx, errResp .AVP_ERR_PIN_LOCKED)
  else if pinAccept cmd.pin = false then
    ({ ctx with session := { ctx.session with pin_attempts := (ctx.session.pin_attempts + 1) % 256 } },
     errResp .AVP_ERR_PIN_INVALID)
  else
    let sid := generate_session_id rand
    let ws := strTrunc (AVP_MAX_NAME_LEN - 1) (if cmd.workspace = "" then "default" else cmd.workspace)
    let ttl := if 0 < cmd.ttl then cmd.ttl else AVP_DEFAULT_TTL
    ({ ctx with session :=
        { active := true, session_id := sid, workspace := ws,
          created_at := now, ttl := ttl, pin_attempts := 0 } },
     { Resp.zero with
       ok := true
       auth :=
         { session_id := strTrunc AVP_SESSION_ID_LEN sid,
           expires_in := ttl,
           workspace := strTrunc (AVP_MAX_NAME_LEN - 1) ws } })

/-- The source's PIN test: `strlen(cmd->pin) < 4` is rejected. -/
def pinAcceptSrc (pin : String) : Bool :=
  decide (4 ≤ pin.length)

/-- `avp_op_authenticate` as in the source. -/
def avp_op_authenticate (now : Nat) (rand : List Nat) (ctx : Ctx) (cmd : Cmd) : Ctx × Resp :=
  avp_op_authenticate_with pinAcceptSrc now rand ctx cmd

/-- `avp_op_store`.  The slot write to the secure element is commented
out in the source (`TODO`); only the metadata table is updated. -/
def avp_op_store (now : Nat) (ctx0 : Ctx) (cmd : Cmd) : Ctx × Resp :=
  let v := avp_session_valid now ctx0
  if v.1 = true then
    match find_secret_by_name v.2 cmd.name with
    | some idx =>
      ({ v.2 with secrets := listModify v.2.secrets idx (fun s => { s with updated_at := now }) },
       okResp)
    | none =>
      match find_free_slot v.2 with
      | none => (v.2, errResp .AVP_ERR_CAPACITY)
      | some idx =>
        let c1 := { v.2 with
          secrets := listModify v.2.secrets idx (fun s =>
            { s with
              name := strTrunc (AVP_MAX_NAME_LEN - 1) cmd.name,
              slot_index := SLOT_SECRETS_START + idx,
              created_at := now,
              in_use := true }),
          secret_count := (v.2.secret_count + 1) % 256 }
        ({ c1 with secrets := listModify c1.secrets idx (fun s => { s with updated_at := now }) },
         okResp)
  else (v.2, errResp .AVP_ERR_NOT_AUTHENTICATED)

/-- `avp_op_retrieve`.  The slot read is commented out in the source;
the value returned on success is the literal placeholder string. -/
def avp_op_retrieve (now : Nat) (ctx0 : Ctx) (cmd : Cmd) : Ctx × Resp :=
  let v := avp_session_valid now ctx0
  if v.1 = true then
    match find_secret_by_name v.2 cmd.name with
    | none => (v.2, errResp .AVP_ERR_SECRET_NOT_FOUND)
    | some _ =>
      (v.2,
       { Resp.zero with
         ok := true,
         retrieve_value := strTrunc (AVP_MAX_VALUE_LEN - 1) "[stored_value]" })
  else (v.2, errResp .AVP_ERR_NOT_AUTHENTICATED)

/-- `avp_op_delete`: `memset` of the metadata entry and a `uint8_t`
decrement of the count. -/
def avp_op_delete (now : Nat) (ctx0 : Ctx) (cmd : Cmd) : Ctx × Resp :=
  let v := avp_session_valid now ctx0
  if v.1 = true then
    match find_secret_by_name v.2 cmd.name with
    | none => (v.2, errResp .AVP_ERR_SECRET_NOT_FOUND)
    | some idx =>
      ({ v.2 with
         secrets := listModify v.2.secrets idx (fun _ => SecretMeta.zero),
         secret_count := (v.2.secret_count + 255) % 256 },
       okResp)
  else (v.2, errResp .AVP_ERR_NOT_AUTHENTICATED)

/-- The name-collecting loop of `avp_op_list` (its `count < 32` guard is
redundant: `count` never exceeds the loop index). -/
def listNames : List SecretMeta → List String
  | [] => []
  | s :: t =>
    if s.in_use = true then strTrunc (AVP_MAX_NAME_LEN - 1) s.name :: listNames t
    else listNames t

/-- `avp_op_list`. -/
def avp_op_list (now : Nat) (ctx0 : Ctx) (cmd : Cmd) : Ctx × Resp :=
  let _ := cmd
  let v := avp_session_valid now ctx0
  if v.1 = true then
    (v.2, { Resp.zero with ok := true, list_names := listNames v.2.secrets })
  else (v.2, errResp .AVP_ERR_NOT_AUTHENTICATED)

/-- `avp_op_rotate`: "Rotate is essentially a store with the same name". -/
def avp_op_rotate (now : Nat) (ctx : Ctx) (cmd : Cmd) : Ctx × Resp :=
  avp_op_store now ctx cmd

/-- `avp_op_hw_challenge`: static echo, no session requirement. -/
def avp_op_hw_challenge (ctx : Ctx) : Ctx × Resp :=
  (ctx,
   { Resp.zero with
     ok := true
     hw_challenge_verified := true
     hw_challenge_model := "TROPIC01"
     hw_challenge_serial := "NC00000001" })

/-- `avp_op_hw_sign`: the signing call is commented out; 64 RNG bytes are
hex-encoded as the placeholder signature. -/
def avp_op_hw_sign (now : Nat) (rand : List Nat) (ctx0 : Ctx) (cmd : Cmd) : Ctx × Resp :=
  let _ := cmd
  let v := avp_session_valid now ctx0
  if v.1 = true then
    (v.2, { Resp.zero with ok := true, hw_sign_signature := hex_encode (rand.take 64) })
  else (v.2, errResp .AVP_ERR_NOT_AUTHENTICATED)

/-- `avp_op_hw_attest`: static placeholder attestation string. -/
def avp_op_hw_attest (now : Nat) (ctx0 : Ctx) (cmd : Cmd) : Ctx × Resp :=
  let _ := cmd
  let v := avp_session_valid now ctx0
  if v.1 = true then
    (v.2,
     { Resp.zero with
       ok := true,
       hw_attest_attestation := "\x7b\"model\":\"TROPIC01\",\"firmware\":\"1.0.0\"\x7d" })
  else (v.2, errResp .AVP_ERR_NOT_AUTHENTICATED)

/-! ## Parsing (avp_parse_cmd) -/

/-- The opcode comparison ladder of `avp_parse_cmd`. -/
def opOfString (s : String) : Option OpCode :=
  if s = "DISCOVER" then some .DISCOVER
  else if s = "AUTHENTICATE" then some .AUTHENTICATE
  else if s = "STORE" then some .STORE
  else if s = "RETRIEVE" then some .RETRIEVE
  else if s = "DELETE" then some .DELETE
  else if s = "LIST" then some .LIST
  else if s = "ROTATE" then some .ROTATE
  else if s = "HW_CHALLENGE" then some .HW_CHALLENGE
  else if s = "HW_SIGN" then some .HW_SIGN
  else if s = "HW_ATTEST" then some .HW_ATTEST
  else none

/-- The zeroed command with the TTL default applied, as at the top of
`avp_parse_cmd`. -/
def emptyCmd : Cmd :=
  { op := .UNKNOWN, session_id := "", workspace := "", name := "", value := "",
    auth_method := "", pin := "", ttl := AVP_DEFAULT_TTL, key_name := "",
    data := [], data_len := 0 }

/-- `avp_parse_cmd`: absent/non-string `op` is `AVP_ERR_PARSE`; an op
outside the closed set is `AVP_ERR_INVALID_OP`; every further field is
optional, with the destination-buffer truncations of the C helpers; a
`data` field is hex-decoded, and a decode failure is silently ignored
(`if (len > 0) cmd->data_len = len;`), leaving `data_len` zero. -/
def avp_parse_cmd (j : JsonFields) : RetCode × Cmd :=
  match j.op with
  | none => (.AVP_ERR_PARSE, emptyCmd)
  | some s =>
    match opOfString s with
    | none => (.AVP_ERR_INVALID_OP, emptyCmd)
    | some op =>
      let cmd : Cmd :=
        { op := op,
          session_id := strTrunc AVP_SESSION_ID_LEN (j.session_id.getD ""),
          workspace := strTrunc (AVP_MAX_NAME_LEN - 1) (j.workspace.getD ""),
          name := strTrunc (AVP_MAX_NAME_LEN - 1) (j.name.getD ""),
          value := strTrunc (AVP_MAX_VALUE_LEN - 1) (j.value.getD ""),
          auth_method := strTrunc 15 (j.auth_method.getD ""),
          pin := strTrunc 15 (j.pin.getD ""),
          ttl := j.requested_ttl.getD (j.ttl.getD AVP_DEFAULT_TTL),
          key_name := strTrunc (AVP_MAX_NAME_LEN - 1) (j.key_name.getD ""),
          data := [], data_len := 0 }
      match j.data with
      | none => (.AVP_OK, cmd)
      | some dh =>
        match hex_decode (strTrunc 511 dh) 256 with
        | none => (.AVP_OK, cmd)
        | some bs =>
          if 0 < bs.length then (.AVP_OK, { cmd with data := bs, data_len := bs.length })
          else (.AVP_OK, cmd)

/-! ## Dispatch (avp_process) -/

/-- The opcode switch of `avp_process`. -/
def avp_execute (now : Nat) (rand : List Nat) (ctx : Ctx) (cmd : Cmd) : Ctx × Resp :=
  match cmd.op with
  | .DISCOVER => avp_op_discover ctx
  | .AUTHENTICATE => avp_op_authenticate now rand ctx cmd
  | .STORE => avp_op_store now ctx cmd
  | .RETRIEVE => avp_op_retrieve now ctx cmd
  | .DELETE => avp_op_delete now ctx cmd
  | .LIST => avp_op_list now ctx cmd
  | .ROTATE => avp_op_rotate now ctx cmd
  | .HW_CHALLENGE => avp_op_hw_challenge ctx
  | .HW_SIGN => avp_op_hw_sign now rand ctx cmd
  | .HW_ATTEST => avp_op_hw_attest now ctx cmd
  | .UNKNOWN => (ctx, errResp .AVP_ERR_INVALID_OP)

/-- `avp_process` up to the response structure: parse, then dispatch;
a parse failure is surfaced unchanged and mutates nothing. -/
def avp_process (now : Nat) (rand : List Nat) (ctx : Ctx) (j : JsonFields) : Ctx × Resp :=
  match avp_parse_cmd j with
  | (ret, cmd) =>
    if ret = .AVP_OK then avp_execute now rand ctx cmd
    else (ctx, errResp ret)

/-! ## Request sequences -/

/-- One request as it reaches the engine: the clock value and RNG bytes
the backend supplies while it is serviced, and the decoded JSON fields. -/
structure Request where
  now : Nat
  rand : List Nat
  fields : JsonFields
  deriving Repr

/-- Sequential processing of a list of requests (states only). -/
def runAll (ctx : Ctx) : List Request → Ctx
  | [] => ctx
  | r :: rs => runAll (avp_process r.now r.rand ctx r.fields).1 rs

/-! ## Derived notions the claims quantify over -/

/-- The opcodes whose handlers check `avp_session_valid` at entry
(everything outside DISCOVER, AUTHENTICATE, HW_CHALLENGE). -/
def sessionRequiring : OpCode → Bool
  | .STORE | .RETRIEVE | .DELETE | .LIST | .ROTATE | .HW_SIGN | .HW_ATTEST => true
  | _ => false

/-- Number of in-use entries of the secret table. -/
def countInUseL : List SecretMeta → Nat
  | [] => 0
  | s :: t => (if s.in_use = true then 1 else 0) + countInUseL t

def countInUse (ctx : Ctx) : Nat :=
  countInUseL ctx.secrets

/-- The bookkeeping invariant of the secret index: the table has its
fixed C array size and `secret_count` counts the in-use entries. -/
def CountInv (ctx : Ctx) : Prop :=
  ctx.secrets.length = AVP_MAX_SECRETS ∧ ctx.secret_count = countInUse ctx

instance (ctx : Ctx) : Decidable (CountInv ctx) := by
  unfold CountInv; infer_instance

/-- Modelled from the spec: the session-TTL clamp the spec describes,
`clamp(requested_ttl or 300, 60, 3600)` — stated only to compare the
spec's words with what the source computes. -/
def ttlClampSpec (requested : Nat) : Nat :=
  min (max (if requested = 0 then AVP_DEFAULT_TTL else requested) 60) 3600

/-! ## Concrete fixtures for witnesses and counterexamples -/

def jsonEmpty : JsonFields :=
  { op := none, session_id := none, workspace := none, name := none, value := none,
    auth_method := none, pin := none, key_name := none, ttl := none,
    requested_ttl := none, data := none }

def jsonAuthOk : JsonFields :=
  { jsonEmpty with
    op := some "AUTHENTICATE", auth_method := some "pin",
    pin := some "123456", requested_ttl := some 300 }

def jsonAuthTtl1 : JsonFields :=
  { jsonAuthOk with requested_ttl := some 1 }

def jsonAuthBad : JsonFields :=
  { jsonEmpty with op := some "AUTHENTICATE", auth_method := some "pin", pin := some "1" }

def jsonStoreKV : JsonFields :=
  { jsonEmpty with op := some "STORE", name := some "k", value := some "v" }

def jsonRetrieveK : JsonFields :=
  { jsonEmpty with op := some "RETRIEVE", name := some "k" }

def jsonHwSignZZ : JsonFields :=
  { jsonEmpty with op := some "HW_SIGN", data := some "zz" }

def jsonHwSignNeg1 : JsonFields :=
  { jsonEmpty with op := some "HW_SIGN", data := some "-1" }

def cmdStoreKV : Cmd :=
  (avp_parse_cmd jsonStoreKV).2

def cmdAuthGoodPin : Cmd :=
  (avp_parse_cmd jsonAuthOk).2

def reqBadAuth : Request :=
  { now := 0, rand := [], fields := jsonAuthBad }

/-- A context whose only session was created at time 0 with a 60-second
TTL: expired at any `now ≥ 60`. -/
def ctxExpired : Ctx :=
  { session :=
      { active := true, session_id := "00112233445566778899aabbccddeeff",
        workspace := "default", created_at := 0, ttl := 60, pin_attempts := 0 },
    secrets := List.replicate AVP_MAX_SECRETS SecretMeta.zero,
    secret_count := 0 }

/-- A locked context: five failed PIN attempts already recorded. -/
def ctxLocked : Ctx :=
  { avp_init with session := { avp_init.session with pin_attempts := 5 } }

/-- A live session context with all 32 slots occupied by one name. -/
def ctxFull : Ctx :=
  { session :=
      { active := true, session_id := "00112233445566778899aabbccddeeff",
        workspace := "default", created_at := 0, ttl := 300, pin_attempts := 0 },
    secrets := List.replicate AVP_MAX_SECRETS
      { name := "x", slot_index := 96, created_at := 0, updated_at := 0, in_use := true },
    secret_count := 32 }

/-- A live session context with a free table. -/
def ctxLive : Ctx :=
  { ctxExpired with session := { ctxExpired.session with ttl := 300 } }

end AVP

namespace AVP

/-! ## Helper lemmas about the list primitives -/

theorem listModify_length {α : Type} :
    ∀ (l : List α) (i : Nat) (f : α → α), (listModify l i f).length = l.length := by
  intro l
  induction l with
  | nil => intro i f; rfl
  | cons a t ih =>
    intro i f
    cases i with
    | zero => rfl
    | succ n => simpa [listModify] using ih n f

theorem findIndex_none {α : Type} (p : α → Bool) :
    ∀ l : List α, findIndex p l = none → ∀ x ∈ l, p x = false := by
  intro l
  induction l with
  | nil => intro _ x hx; cases hx
  | cons a t ih =>
    intro h x hx
    rw [findIndex] at h
    by_cases hpa : p a = true
    · rw [if_pos hpa] at h; cases h
    · rw [if_neg hpa] at h
      cases hx with
      | head => exact Bool.eq_false_iff.mpr hpa
      | tail _ hxt =>
        refine ih ?_ x hxt
        cases hft : findIndex p t with
        | none => rfl
        | some n => rw [hft] at h; cases h

theorem findIndex_some {α : Type} (p : α → Bool) (d : α) :
    ∀ (l : List α) (i : Nat), findIndex p l = some i →
      i < l.length ∧ p (l.getD i d) = true := by
  intro l
  induction l with
  | nil => intro i h; cases h
  | cons a t ih =>
    intro i h
    rw [findIndex] at h
    by_cases hpa : p a = true
    · rw [if_pos hpa] at h
      cases h
      exact ⟨Nat.succ_pos _, hpa⟩
    · rw [if_neg hpa] at h
      cases hft : findIndex p t with
      | none => rw [hft] at h; cases h
      | some n =>
        rw [hft] at h
        cases h
        obtain ⟨hlt, hp⟩ := ih n hft
        exact ⟨Nat.succ_lt_succ hlt, by simpa using hp⟩

theorem listModify_getD_same {α : Type} (d : α) :
    ∀ (l : List α) (i : Nat) (f : α → α), i < l.length →
      (listModify l i f).getD i d = f (l.getD i d) := by
  intro l
  induction l with
  | nil => intro i f h; cases h
  | cons a t ih =>
    intro i f h
    cases i with
    | zero => rfl
    | succ n => simpa [listModify] using ih n f (Nat.lt_of_succ_lt_succ h)

theorem countInUseL_le_length : ∀ l : List SecretMeta, countInUseL l ≤ l.length := by
  intro l
  induction l with
  | nil => exact Nat.le_refl 0
  | cons s t ih =>
    rw [countInUseL]
    by_cases h : s.in_use = true <;> simp [h] <;> omega

theorem countInUseL_listModify :
    ∀ (l : List SecretMeta) (i : Nat) (f : SecretMeta → SecretMeta), i < l.length →
      countInUseL (listModify l i f) +
        (if (l.getD i SecretMeta.zero).in_use = true then 1 else 0)
      = countInUseL l +
        (if (f (l.getD i SecretMeta.zero)).in_use = true then 1 else 0) := by
  intro l
  induction l with
  | nil => intro i f h; cases h
  | cons a t ih =>
    intro i f h
    cases i with
    | zero =>
      simp only [listModify, countInUseL, List.getD_cons_zero]
      by_cases h1 : a.in_use = true <;> by_cases h2 : (f a).in_use = true <;>
        simp [h1, h2] <;> omega
    | succ n =>
      have := ih n f (Nat.lt_of_succ_lt_succ h)
      simp only [listModify, countInUseL, List.getD_cons_succ]
      omega

theorem countInUseL_pos :
    ∀ (l : List SecretMeta) (i : Nat), i < l.length →
      (l.getD i SecretMeta.zero).in_use = true → 1 ≤ countInUseL l := by
  intro l
  induction l with
  | nil => intro i h; cases h
  | cons a t ih =>
    intro i h hu
    cases i with
    | zero =>
      rw [List.getD_cons_zero] at hu
      rw [countInUseL]
      simp [hu]
    | succ n =>
      rw [List.getD_cons_succ] at hu
      have := ih n (Nat.lt_of_succ_lt_succ h) hu
      rw [countInUseL]
      omega

theorem listNames_length : ∀ l : List SecretMeta, (listNames l).length = countInUseL l := by
  intro l
  induction l with
  | nil => rfl
  | cons s t ih =>
    rw [listNames, countInUseL]
    by_cases h : s.in_use = true <;> simp [h, ih] <;> omega

/-! ## Helper lemmas about `avp_session_valid` -/

theorem sv_preserves (now : Nat) (ctx : Ctx) :
    (avp_session_valid now ctx).2.secrets = ctx.secrets ∧
    (avp_session_valid now ctx).2.secret_count = ctx.secret_count ∧
    (avp_session_valid now ctx).2.session.pin_attempts = ctx.session.pin_attempts := by
  unfold avp_session_valid
  split
  · exact ⟨rfl, rfl, rfl⟩
  · split
    · exact ⟨rfl, rfl, rfl⟩
    · exact ⟨rfl, rfl, rfl⟩

theorem sv_true_fixes (now : Nat) (ctx : Ctx) :
    (avp_session_valid now ctx).1 = true → (avp_session_valid now ctx).2 = ctx := by
  unfold avp_session_valid
  split
  · intro h; cases h
  · split
    · intro h; cases h
    · intro _; rfl

end AVP

namespace AVP

/-- Claim C8: for every context state and every decoded command, ROTATE
produces exactly the same response and post-state as STORE on the same
command — `avp_op_rotate` forwards to `avp_op_store`, so rotating an
existing name updates it and rotating an absent name takes the same
insertion path STORE takes. -/
theorem C8_rotate_is_store (now : Nat) (rand : List Nat) (ctx : Ctx) (cmd : Cmd) :
    avp_op_rotate now ctx cmd = avp_op_store now ctx cmd ∧
    avp_execute now rand ctx { cmd with op := .ROTATE }
      = avp_execute now rand ctx { cmd with op := .STORE } := by
  refine ⟨rfl, ?_⟩
  cases cmd
  rfl

/-- Claim C9: the response and resulting state of a session-requiring
request do not depend on the `session_id` field of the request; only
session liveness is checked. -/
theorem C9_session_id_ignored (now : Nat) (rand : List Nat) (ctx : Ctx) (cmd : Cmd)
    (sid1 sid2 : String) (hop : sessionRequiring cmd.op = true) :
    avp_execute now rand ctx { cmd with session_id := sid1 }
      = avp_execute now rand ctx { cmd with session_id := sid2 } := by
  cases cmd with
  | mk op s w n vl am pn t kn dt dl =>
    cases op <;> first | rfl | simp [sessionRequiring] at hop

/-- Witness for C9 at a concrete input: a STORE request processed with
two different `session_id` values gives identical results. -/
theorem C9_witness :
    avp_execute 5 [] ctxLive { cmdStoreKV with session_id := "deadbeef" }
      = avp_execute 5 [] ctxLive { cmdStoreKV with session_id := "" } :=
  C9_session_id_ignored 5 [] ctxLive cmdStoreKV "deadbeef" "" rfl

/-- Claim C1: every request whose opcode is outside
DISCOVER/AUTHENTICATE/HW_CHALLENGE fails with the authentication error
`NOT_AUTHENTICATED` when no valid session is observed at dispatch time,
with the whole result being the constant error response (the secret index
is neither consulted nor modified); it succeeds only when the session is
valid at entry. -/
theorem C1_session_gate (now : Nat) (rand : List Nat) (ctx : Ctx) (cmd : Cmd)
    (hop : sessionRequiring cmd.op = true) :
    ((avp_session_valid now ctx).1 = false →
       avp_execute now rand ctx cmd
         = ((avp_session_valid now ctx).2, errResp .AVP_ERR_NOT_AUTHENTICATED) ∧
       (avp_execute now rand ctx cmd).1.secrets = ctx.secrets ∧
       (avp_execute now rand ctx cmd).1.secret_count = ctx.secret_count) ∧
    ((avp_execute now rand ctx cmd).2.ok = true →
       (avp_session_valid now ctx).1 = true) := by
  have hresp : (avp_session_valid now ctx).1 = false →
      avp_execute now rand ctx cmd
        = ((avp_session_valid now ctx).2, errResp .AVP_ERR_NOT_AUTHENTICATED) := by
    intro hinv
    cases hc : cmd.op <;> simp [sessionRequiring, hc] at hop <;>
      simp [avp_execute, hc, avp_op_store, avp_op_retrieve, avp_op_delete,
            avp_op_list, avp_op_rotate, avp_op_hw_sign, avp_op_hw_attest, hinv]
  constructor
  · intro hinv
    refine ⟨hresp hinv, ?_, ?_⟩
    · rw [hresp hinv]; exact (sv_preserves now ctx).1
    · rw [hresp hinv]; exact (sv_preserves now ctx).2.1
  · intro hok
    cases hv : (avp_session_valid now ctx).1 with
    | true => rfl
    | false =>
      rw [hresp hv] at hok
      cases hok

/-- Witness for C1 at a concrete input: a STORE dispatched on the freshly
initialized context (no session) fails with `NOT_AUTHENTICATED`. -/
theorem C1_witness :
    avp_execute 0 [] avp_init cmdStoreKV
      = ((avp_session_valid 0 avp_init).2, errResp .AVP_ERR_NOT_AUTHENTICATED) :=
  ((C1_session_gate 0 [] avp_init cmdStoreKV rfl).1 rfl).1

end AVP

namespace AVP

/-! ## Helper lemmas: which parts of the state each handler can touch -/

theorem retrieve_fst (now : Nat) (ctx : Ctx) (cmd : Cmd) :
    (avp_op_retrieve now ctx cmd).1 = (avp_session_valid now ctx).2 := by
  simp only [avp_op_retrieve]
  split
  · split <;> rfl
  · rfl

theorem list_fst (now : Nat) (ctx : Ctx) (cmd : Cmd) :
    (avp_op_list now ctx cmd).1 = (avp_session_valid now ctx).2 := by
  simp only [avp_op_list]
  split <;> rfl

theorem hw_sign_fst (now : Nat) (rand : List Nat) (ctx : Ctx) (cmd : Cmd) :
    (avp_op_hw_sign now rand ctx cmd).1 = (avp_session_valid now ctx).2 := by
  simp only [avp_op_hw_sign]
  split <;> rfl

theorem hw_attest_fst (now : Nat) (ctx : Ctx) (cmd : Cmd) :
    (avp_op_hw_attest now ctx cmd).1 = (avp_session_valid now ctx).2 := by
  simp only [avp_op_hw_attest]
  split <;> rfl

theorem store_fst_session (now : Nat) (ctx : Ctx) (cmd : Cmd) :
    (avp_op_store now ctx cmd).1.session = (avp_session_valid now ctx).2.session := by
  simp only [avp_op_store]
  split
  · split
    · rfl
    · split <;> rfl
  · rfl

theorem delete_fst_session (now : Nat) (ctx : Ctx) (cmd : Cmd) :
    (avp_op_delete now ctx cmd).1.session = (avp_session_valid now ctx).2.session := by
  simp only [avp_op_delete]
  split
  · split <;> rfl
  · rfl

/-- A locked PIN counter is preserved by every dispatched operation. -/
theorem exec_locked_pin (now : Nat) (rand : List Nat) (ctx : Ctx) (cmd : Cmd)
    (h : AVP_MAX_PIN_ATTEMPTS ≤ ctx.session.pin_attempts) :
    AVP_MAX_PIN_ATTEMPTS ≤ (avp_execute now rand ctx cmd).1.session.pin_attempts := by
  have hsv := (sv_preserves now ctx).2.2
  cases hc : cmd.op
  case UNKNOWN => simpa [avp_execute, hc] using h
  case DISCOVER => simpa [avp_execute, hc, avp_op_discover] using h
  case HW_CHALLENGE => simpa [avp_execute, hc, avp_op_hw_challenge] using h
  case AUTHENTICATE =>
    simpa [avp_execute, hc, avp_op_authenticate, avp_op_authenticate_with, if_pos h] using h
  case STORE =>
    simp only [avp_execute, hc, store_fst_session]
    omega
  case ROTATE =>
    simp only [avp_execute, hc, avp_op_rotate, store_fst_session]
    omega
  case DELETE =>
    simp only [avp_execute, hc, delete_fst_session]
    omega
  case RETRIEVE =>
    simp only [avp_execute, hc, retrieve_fst]
    omega
  case LIST =>
    simp only [avp_execute, hc, list_fst]
    omega
  case HW_SIGN =>
    simp only [avp_execute, hc, hw_sign_fst]
    omega
  case HW_ATTEST =>
    simp only [avp_execute, hc, hw_attest_fst]
    omega

/-- A locked PIN counter is preserved by `avp_process`. -/
theorem process_locked_pin (now : Nat) (rand : List Nat) (ctx : Ctx) (j : JsonFields)
    (h : AVP_MAX_PIN_ATTEMPTS ≤ ctx.session.pin_attempts) :
    AVP_MAX_PIN_ATTEMPTS ≤ (avp_process now rand ctx j).1.session.pin_attempts := by
  unfold avp_process
  split
  · split
    · exact exec_locked_pin now rand ctx _ h
    · exact h

/-- A locked PIN counter is preserved by every request sequence. -/
theorem runAll_locked_pin :
    ∀ (reqs : List Request) (ctx : Ctx),
      AVP_MAX_PIN_ATTEMPTS ≤ ctx.session.pin_attempts →
      AVP_MAX_PIN_ATTEMPTS ≤ (runAll ctx reqs).session.pin_attempts := by
  intro reqs
  induction reqs with
  | nil => intro ctx h; exact h
  | cons r rs ih =>
    intro ctx h
    exact ih _ (process_locked_pin r.now r.rand ctx r.fields h)

end AVP

namespace AVP

/-- Claim C2: once `pin_attempts` has reached 5 (as it does after five
consecutive AUTHENTICATE calls answered with `PIN_INVALID`), every
subsequent AUTHENTICATE — with any PIN, including one that would
otherwise verify — returns `PIN_LOCKED` and leaves the state unchanged;
the result is the same for every PIN-acceptance test (the verification
placeholder is never consulted); and no dispatched operation or request
sequence ever lowers `pin_attempts` below 5 again. -/
theorem C2_pin_lockout (ctx : Ctx)
    (h : AVP_MAX_PIN_ATTEMPTS ≤ ctx.session.pin_attempts) :
    (∀ now rand cmd,
        avp_op_authenticate now rand ctx cmd = (ctx, errResp .AVP_ERR_PIN_LOCKED)) ∧
    (∀ pinAccept now rand cmd,
        avp_op_authenticate_with pinAccept now rand ctx cmd
          = (ctx, errResp .AVP_ERR_PIN_LOCKED)) ∧
    (∀ now rand cmd,
        AVP_MAX_PIN_ATTEMPTS ≤ (avp_execute now rand ctx cmd).1.session.pin_attempts) ∧
    (∀ reqs, AVP_MAX_PIN_ATTEMPTS ≤ (runAll ctx reqs).session.pin_attempts) ∧
    ((∀ i, i < 5 →
        (avp_process 0 [] (runAll avp_init (List.replicate i reqBadAuth))
            jsonAuthBad).2.error_code = .AVP_ERR_PIN_INVALID) ∧
      (runAll avp_init (List.replicate 5 reqBadAuth)).session.pin_attempts = 5) := by
  refine ⟨?_, ?_, ?_, ?_, ?_⟩
  · intro now rand cmd
    simp [avp_op_authenticate, avp_op_authenticate_with, if_pos h]
  · intro pinAccept now rand cmd
    simp [avp_op_authenticate_with, if_pos h]
  · intro now rand cmd
    exact exec_locked_pin now rand ctx cmd h
  · intro reqs
    exact runAll_locked_pin reqs ctx h
  · exact ⟨by decide, by decide⟩

/-- Witness for C2 at a concrete input: on the locked context, an
AUTHENTICATE carrying the PIN that would otherwise verify is answered
`PIN_LOCKED` and changes nothing. -/
theorem C2_witness :
    avp_op_authenticate 7 [] ctxLocked cmdAuthGoodPin
      = (ctxLocked, errResp .AVP_ERR_PIN_LOCKED) :=
  (C2_pin_lockout ctxLocked (by decide)).1 7 [] cmdAuthGoodPin

end AVP

namespace AVP

/-! ## Helper lemmas: the error codes each component can emit -/

theorem parse_no_expired (j : JsonFields) :
    (avp_parse_cmd j).1 ≠ .AVP_ERR_SESSION_EXPIRED := by
  unfold avp_parse_cmd
  cases hop : j.op with
  | none => simp [hop]
  | some s =>
    cases hos : opOfString s with
    | none => simp [hop, hos]
    | some op =>
      cases hd : j.data with
      | none => simp [hop, hos, hd]
      | some dh =>
        cases hx : hex_decode (strTrunc 511 dh) 256 with
        | none => simp [hop, hos, hd, hx]
        | some bs =>
          by_cases hb : 0 < bs.length <;> simp [hop, hos, hd, hx, hb]

theorem auth_no_expired (pinAccept : String → Bool) (now : Nat) (rand : List Nat)
    (ctx : Ctx) (cmd : Cmd) :
    (avp_op_authenticate_with pinAccept now rand ctx cmd).2.error_code
      ≠ .AVP_ERR_SESSION_EXPIRED := by
  simp only [avp_op_authenticate_with]
  split
  · simp [errResp, Resp.zero]
  · split
    · simp [errResp, Resp.zero]
    · simp [Resp.zero]

theorem store_no_expired (now : Nat) (ctx : Ctx) (cmd : Cmd) :
    (avp_op_store now ctx cmd).2.error_code ≠ .AVP_ERR_SESSION_EXPIRED := by
  simp only [avp_op_store]
  split
  · split
    · simp [okResp, Resp.zero]
    · split
      · simp [errResp, Resp.zero]
      · simp [okResp, Resp.zero]
  · simp [errResp, Resp.zero]

theorem retrieve_no_expired (now : Nat) (ctx : Ctx) (cmd : Cmd) :
    (avp_op_retrieve now ctx cmd).2.error_code ≠ .AVP_ERR_SESSION_EXPIRED := by
  simp only [avp_op_retrieve]
  split
  · split
    · simp [errResp, Resp.zero]
    · simp [Resp.zero]
  · simp [errResp, Resp.zero]

theorem delete_no_expired (now : Nat) (ctx : Ctx) (cmd : Cmd) :
    (avp_op_delete now ctx cmd).2.error_code ≠ .AVP_ERR_SESSION_EXPIRED := by
  simp only [avp_op_delete]
  split
  · split
    · simp [errResp, Resp.zero]
    · simp [okResp, Resp.zero]
  · simp [errResp, Resp.zero]

theorem list_no_expired (now : Nat) (ctx : Ctx) (cmd : Cmd) :
    (avp_op_list now ctx cmd).2.error_code ≠ .AVP_ERR_SESSION_EXPIRED := by
  simp only [avp_op_list]
  split
  · simp [Resp.zero]
  · simp [errResp, Resp.zero]

theorem hw_sign_no_expired (now : Nat) (rand : List Nat) (ctx : Ctx) (cmd : Cmd) :
    (avp_op_hw_sign now rand ctx cmd).2.error_code ≠ .AVP_ERR_SESSION_EXPIRED := by
  simp only [avp_op_hw_sign]
  split
  · simp [Resp.zero]
  · simp [errResp, Resp.zero]

theorem hw_attest_no_expired (now : Nat) (ctx : Ctx) (cmd : Cmd) :
    (avp_op_hw_attest now ctx cmd).2.error_code ≠ .AVP_ERR_SESSION_EXPIRED := by
  simp only [avp_op_hw_attest]
  split
  · simp [Resp.zero]
  · simp [errResp, Resp.zero]

theorem exec_no_expired (now : Nat) (rand : List Nat) (ctx : Ctx) (cmd : Cmd) :
    (avp_execute now rand ctx cmd).2.error_code ≠ .AVP_ERR_SESSION_EXPIRED := by
  cases hc : cmd.op
  case UNKNOWN => simp [avp_execute, hc, errResp, Resp.zero]
  case DISCOVER => simp [avp_execute, hc, avp_op_discover, Resp.zero]
  case HW_CHALLENGE => simp [avp_execute, hc, avp_op_hw_challenge, Resp.zero]
  case AUTHENTICATE =>
    simpa [avp_execute, hc, avp_op_authenticate] using
      auth_no_expired pinAcceptSrc now rand ctx cmd
  case STORE => simpa [avp_execute, hc] using store_no_expired now ctx cmd
  case ROTATE =>
    simpa [avp_execute, hc, avp_op_rotate] using store_no_expired now ctx cmd
  case RETRIEVE => simpa [avp_execute, hc] using retrieve_no_expired now ctx cmd
  case DELETE => simpa [avp_execute, hc] using delete_no_expired now ctx cmd
  case LIST => simpa [avp_execute, hc] using list_no_expired now ctx cmd
  case HW_SIGN => simpa [avp_execute, hc] using hw_sign_no_expired now rand ctx cmd
  case HW_ATTEST => simpa [avp_execute, hc] using hw_attest_no_expired now ctx cmd

/-- The response of a session-requiring request with no valid session at
entry is the constant `NOT_AUTHENTICATED` error (shared with C1/C4). -/
theorem exec_invalid_session (now : Nat) (rand : List Nat) (ctx : Ctx) (cmd : Cmd)
    (hop : sessionRequiring cmd.op = true)
    (hinv : (avp_session_valid now ctx).1 = false) :
    avp_execute now rand ctx cmd
      = ((avp_session_valid now ctx).2, errResp .AVP_ERR_NOT_AUTHENTICATED) := by
  cases hc : cmd.op <;> simp [sessionRequiring, hc] at hop <;>
    simp [avp_execute, hc, avp_op_store, avp_op_retrieve, avp_op_delete,
          avp_op_list, avp_op_rotate, avp_op_hw_sign, avp_op_hw_attest, hinv]

end AVP

namespace AVP

/-- Claim C4 (amended): a session-requiring request dispatched after the
session's TTL has elapsed fails with `NOT_AUTHENTICATED` — the same code
produced when no session exists at all — and the engine never produces
`SESSION_EXPIRED` on any request. -/
theorem C4_expiry_amended :
    (∀ (now : Nat) (rand : List Nat) (ctx : Ctx) (cmd : Cmd),
        sessionRequiring cmd.op = true →
        (avp_session_valid now ctx).1 = false →
        (avp_execute now rand ctx cmd).2.error_code = .AVP_ERR_NOT_AUTHENTICATED) ∧
    (∀ (now : Nat) (rand : List Nat) (ctx : Ctx) (j : JsonFields),
        (avp_process now rand ctx j).2.error_code ≠ .AVP_ERR_SESSION_EXPIRED) := by
  constructor
  · intro now rand ctx cmd hop hinv
    rw [exec_invalid_session now rand ctx cmd hop hinv]
    rfl
  · intro now rand ctx j
    show (if (avp_parse_cmd j).1 = RetCode.AVP_OK
          then avp_execute now rand ctx (avp_parse_cmd j).2
          else (ctx, errResp (avp_parse_cmd j).1)).2.error_code
        ≠ RetCode.AVP_ERR_SESSION_EXPIRED
    split
    · exact exec_no_expired now rand ctx _
    · simpa [errResp] using parse_no_expired j

/-- Claim C4 counterexample: a session created at time 0 with a
60-second TTL, observed at time 61 by a STORE request, is answered with
error code `NOT_AUTHENTICATED`, not the `SESSION_EXPIRED` the claim
requires. -/
theorem C4_counterexample :
    ctxExpired.session.active = true ∧
    ctxExpired.session.created_at + ctxExpired.session.ttl ≤ 61 ∧
    (avp_process 61 [] ctxExpired jsonStoreKV).2.error_code
      = .AVP_ERR_NOT_AUTHENTICATED ∧
    RetCode.AVP_ERR_NOT_AUTHENTICATED ≠ RetCode.AVP_ERR_SESSION_EXPIRED := by
  refine ⟨rfl, by decide, by decide, by decide⟩

/-- Witness for C4 (amended) at concrete inputs. -/
theorem C4_witness :
    (avp_execute 61 [] ctxExpired cmdStoreKV).2.error_code
      = .AVP_ERR_NOT_AUTHENTICATED ∧
    (avp_process 0 [] avp_init jsonRetrieveK).2.error_code
      ≠ .AVP_ERR_SESSION_EXPIRED :=
  ⟨C4_expiry_amended.1 61 [] ctxExpired cmdStoreKV (by decide) (by decide),
   C4_expiry_amended.2 0 [] avp_init jsonRetrieveK⟩

end AVP

namespace AVP

/-- Claim C5 (amended): a successful AUTHENTICATE stores and returns as
`expires_in` exactly `requested_ttl` when it is positive and 300
otherwise; no clamping to `[60, 3600]` is performed. -/
theorem C5_ttl_amended (now : Nat) (rand : List Nat) (ctx : Ctx) (cmd : Cmd)
    (hnl : ctx.session.pin_attempts < AVP_MAX_PIN_ATTEMPTS)
    (hpin : pinAcceptSrc cmd.pin = true) :
    (avp_op_authenticate now rand ctx cmd).2.ok = true ∧
    (avp_op_authenticate now rand ctx cmd).2.auth.expires_in
      = (if 0 < cmd.ttl then cmd.ttl else AVP_DEFAULT_TTL) ∧
    (avp_op_authenticate now rand ctx cmd).1.session.ttl
      = (if 0 < cmd.ttl then cmd.ttl else AVP_DEFAULT_TTL) := by
  have hlock : ¬ AVP_MAX_PIN_ATTEMPTS ≤ ctx.session.pin_attempts := Nat.not_le.mpr hnl
  simp [avp_op_authenticate, avp_op_authenticate_with, hlock, hpin]

/-- Claim C5 counterexample: from the fresh context, AUTHENTICATE with
`requested_ttl = 1` succeeds with `expires_in = 1`, while the clamp the
claim states would give 60. -/
theorem C5_counterexample :
    (avp_process 0 (List.range 16) avp_init jsonAuthTtl1).2.ok = true ∧
    (avp_process 0 (List.range 16) avp_init jsonAuthTtl1).2.auth.expires_in = 1 ∧
    ttlClampSpec 1 = 60 ∧ (1 : Nat) ≠ 60 :=
  ⟨by decide, by decide, by decide, by decide⟩

/-- Witness for C5 (amended): requesting a TTL of 999999 yields exactly
999999, far above the claimed 3600 cap. -/
theorem C5_witness :
    (avp_op_authenticate 0 [] avp_init
        { cmdAuthGoodPin with ttl := 999999 }).2.auth.expires_in = 999999 := by
  have h := C5_ttl_amended 0 [] avp_init { cmdAuthGoodPin with ttl := 999999 }
    (by decide) (by decide)
  rw [h.2.1]
  decide

end AVP

namespace AVP

/-- Claim C7 (amended): an absent or non-string `op` yields `PARSE_ERROR`
and an `op` outside the closed opcode set yields `INVALID_OPERATION`, as
the claim states; but the `data` field never causes a rejection and
`INVALID_PARAMETER` is never produced by parsing: when the sscanf-based
`hex_decode` fails (e.g. `"zz"`, odd length, oversize) the error is
silently discarded — parsing returns `AVP_OK` with the command's data
left empty — and whatever `hex_decode` accepts (which, through ISO C's
`%x`, goes beyond well-formed lowercase hex: embedded whitespace,
uppercase digits, signed pairs such as `"-1"`) is decoded and stored. -/
theorem C7_parse_amended :
    (∀ j : JsonFields, j.op = none → (avp_parse_cmd j).1 = .AVP_ERR_PARSE) ∧
    (∀ (j : JsonFields) (s : String), j.op = some s → opOfString s = none →
        (avp_parse_cmd j).1 = .AVP_ERR_INVALID_OP) ∧
    (∀ (j : JsonFields) (s dh : String) (op : OpCode),
        j.op = some s → opOfString s = some op → j.data = some dh →
        hex_decode (strTrunc 511 dh) 256 = none →
        (avp_parse_cmd j).1 = .AVP_OK ∧
        (avp_parse_cmd j).2.data = [] ∧
        (avp_parse_cmd j).2.data_len = 0) ∧
    (∀ (j : JsonFields) (s dh : String) (op : OpCode) (bs : List Nat),
        j.op = some s → opOfString s = some op → j.data = some dh →
        hex_decode (strTrunc 511 dh) 256 = some bs → 0 < bs.length →
        (avp_parse_cmd j).1 = .AVP_OK ∧
        (avp_parse_cmd j).2.data = bs ∧
        (avp_parse_cmd j).2.data_len = bs.length) ∧
    (∀ j : JsonFields, (avp_parse_cmd j).1 ≠ .AVP_ERR_INVALID_PARAM) := by
  refine ⟨?_, ?_, ?_, ?_, ?_⟩
  · intro j h
    simp [avp_parse_cmd, h]
  · intro j s hs ho
    simp [avp_parse_cmd, hs, ho]
  · intro j s dh op hs ho hd hx
    simp [avp_parse_cmd, hs, ho, hd, hx]
  · intro j s dh op bs hs ho hd hx hb
    simp [avp_parse_cmd, hs, ho, hd, hx, hb]
  · intro j
    unfold avp_parse_cmd
    cases hop : j.op with
    | none => simp [hop]
    | some s =>
      cases hos : opOfString s with
      | none => simp [hop, hos]
      | some op =>
        cases hd : j.data with
        | none => simp [hop, hos, hd]
        | some dh =>
          cases hx : hex_decode (strTrunc 511 dh) 256 with
          | none => simp [hop, hos, hd, hx]
          | some bs =>
            by_cases hb : 0 < bs.length <;> simp [hop, hos, hd, hx, hb]

/-- Claim C7 counterexample: the request with `op = "HW_SIGN"` and the
malformed hex `data = "zz"` parses with `AVP_OK`, not the claimed
`INVALID_PARAMETER` — the decode failure is ignored; and the equally
not-well-formed `data = "-1"` is not even ignored: `sscanf "%2x"`
accepts the signed pair, so parsing succeeds with the data bytes set to
`[0xff]`. -/
theorem C7_counterexample :
    jsonHwSignZZ.data = some "zz" ∧
    hex_decode "zz" 256 = none ∧
    (avp_parse_cmd jsonHwSignZZ).1 = .AVP_OK ∧
    jsonHwSignNeg1.data = some "-1" ∧
    hex_decode "-1" 256 = some [255] ∧
    (avp_parse_cmd jsonHwSignNeg1).1 = .AVP_OK ∧
    (avp_parse_cmd jsonHwSignNeg1).2.data = [255] ∧
    (avp_parse_cmd jsonHwSignNeg1).2.data_len = 1 ∧
    RetCode.AVP_OK ≠ RetCode.AVP_ERR_INVALID_PARAM :=
  ⟨rfl, by decide, by decide, rfl, by decide, by decide, by decide, by decide, by decide⟩

/-- Witness for C7 (amended) at concrete inputs: a request without `op`,
one with the unknown op `"FROB"`, one with the undecodable data `"zz"`,
and one with the signed pair `"-1"` that decodes to `[0xff]`. -/
theorem C7_witness :
    (avp_parse_cmd jsonEmpty).1 = .AVP_ERR_PARSE ∧
    (avp_parse_cmd { jsonEmpty with op := some "FROB" }).1 = .AVP_ERR_INVALID_OP ∧
    (avp_parse_cmd jsonHwSignZZ).1 = .AVP_OK ∧
    (avp_parse_cmd jsonHwSignZZ).2.data_len = 0 ∧
    (avp_parse_cmd jsonHwSignNeg1).2.data = [255] ∧
    (avp_parse_cmd jsonHwSignNeg1).1 ≠ .AVP_ERR_INVALID_PARAM :=
  ⟨C7_parse_amended.1 jsonEmpty rfl,
   C7_parse_amended.2.1 { jsonEmpty with op := some "FROB" } "FROB" rfl (by decide),
   (C7_parse_amended.2.2.1 jsonHwSignZZ "HW_SIGN" "zz" .HW_SIGN rfl (by decide) rfl
      (by decide)).1,
   (C7_parse_amended.2.2.1 jsonHwSignZZ "HW_SIGN" "zz" .HW_SIGN rfl (by decide) rfl
      (by decide)).2.2,
   (C7_parse_amended.2.2.2.1 jsonHwSignNeg1 "HW_SIGN" "-1" .HW_SIGN [255] rfl
      (by decide) rfl (by decide) (by decide)).2.1,
   C7_parse_amended.2.2.2.2 jsonHwSignNeg1⟩

end AVP

namespace AVP

/-- Claim C3 evaluated on the code at the failing input: after a
successful AUTHENTICATE, a successful STORE of `("k", "v")` followed by
RETRIEVE of `"k"` with no intervening operation answers with the
placeholder string `"[stored_value]"` — not the stored value `"v"` — 
because the secure-element slot I/O is a stubbed TODO in the source. -/
theorem C3_stubbed_retrieve :
    (let s1 := avp_process 100 (List.range 16) avp_init jsonAuthOk
     let s2 := avp_process 101 [] s1.1 jsonStoreKV
     let s3 := avp_process 102 [] s2.1 jsonRetrieveK
     s1.2.ok = true ∧ s2.2.ok = true ∧ s3.2.ok = true ∧
     s3.2.retrieve_value = "[stored_value]" ∧
     s3.2.retrieve_value ≠ "v") := by
  decide

end AVP

namespace AVP

/-! ## Helper lemmas: occupancy bookkeeping -/

theorem findIndex_eq_none {α : Type} (p : α → Bool) :
    ∀ l : List α, (∀ x ∈ l, p x = false) → findIndex p l = none := by
  intro l
  induction l with
  | nil => intro _; rfl
  | cons a t ih =>
    intro h
    rw [findIndex]
    rw [h a (List.mem_cons_self a t)]
    simp [ih (fun x hx => h x (List.mem_cons_of_mem a hx))]

theorem countInUseL_listModify_preserve (l : List SecretMeta) (i : Nat)
    (f : SecretMeta → SecretMeta) (hf : ∀ x : SecretMeta, (f x).in_use = x.in_use)
    (h : i < l.length) :
    countInUseL (listModify l i f) = countInUseL l := by
  have hmod := countInUseL_listModify l i f h
  rw [hf] at hmod
  omega

theorem countInUseL_listModify_set (l : List SecretMeta) (i : Nat)
    (f : SecretMeta → SecretMeta) (h : i < l.length)
    (h0 : (l.getD i SecretMeta.zero).in_use = false)
    (h1 : (f (l.getD i SecretMeta.zero)).in_use = true) :
    countInUseL (listModify l i f) = countInUseL l + 1 := by
  have hmod := countInUseL_listModify l i f h
  rw [h0, h1] at hmod
  simp at hmod
  omega

theorem countInUseL_listModify_clear (l : List SecretMeta) (i : Nat)
    (f : SecretMeta → SecretMeta) (h : i < l.length)
    (h0 : (l.getD i SecretMeta.zero).in_use = true)
    (h1 : (f (l.getD i SecretMeta.zero)).in_use = false) :
    countInUseL (listModify l i f) + 1 = countInUseL l := by
  have hmod := countInUseL_listModify l i f h
  rw [h0, h1] at hmod
  simp at hmod
  omega

theorem auth_keeps (pinAccept : String → Bool) (now : Nat) (rand : List Nat)
    (ctx : Ctx) (cmd : Cmd) :
    (avp_op_authenticate_with pinAccept now rand ctx cmd).1.secrets = ctx.secrets ∧
    (avp_op_authenticate_with pinAccept now rand ctx cmd).1.secret_count
      = ctx.secret_count := by
  simp only [avp_op_authenticate_with]
  split
  · exact ⟨rfl, rfl⟩
  · split
    · exact ⟨rfl, rfl⟩
    · exact ⟨rfl, rfl⟩

theorem store_secrets_length (now : Nat) (ctx : Ctx) (cmd : Cmd) :
    (avp_op_store now ctx cmd).1.secrets.length = ctx.secrets.length := by
  have hsv := (sv_preserves now ctx).1
  simp only [avp_op_store]
  split
  · split
    · simp [listModify_length, hsv]
    · split
      · simp [hsv]
      · simp [listModify_length, hsv]
  · simp [hsv]

theorem delete_secrets_length (now : Nat) (ctx : Ctx) (cmd : Cmd) :
    (avp_op_delete now ctx cmd).1.secrets.length = ctx.secrets.length := by
  have hsv := (sv_preserves now ctx).1
  simp only [avp_op_delete]
  split
  · split
    · simp [hsv]
    · simp [listModify_length, hsv]
  · simp [hsv]

theorem exec_secrets_length (now : Nat) (rand : List Nat) (ctx : Ctx) (cmd : Cmd) :
    (avp_execute now rand ctx cmd).1.secrets.length = ctx.secrets.length := by
  have hsv := (sv_preserves now ctx).1
  cases hc : cmd.op
  case UNKNOWN => simp [avp_execute, hc]
  case DISCOVER => simp [avp_execute, hc, avp_op_discover]
  case HW_CHALLENGE => simp [avp_execute, hc, avp_op_hw_challenge]
  case AUTHENTICATE =>
    simp only [avp_execute, hc, avp_op_authenticate]
    rw [(auth_keeps pinAcceptSrc now rand ctx cmd).1]
  case STORE => simp only [avp_execute, hc]; exact store_secrets_length now ctx cmd
  case ROTATE =>
    simp only [avp_execute, hc, avp_op_rotate]
    exact store_secrets_length now ctx cmd
  case DELETE => simp only [avp_execute, hc]; exact delete_secrets_length now ctx cmd
  case RETRIEVE => simp only [avp_execute, hc, retrieve_fst]; rw [hsv]
  case LIST => simp only [avp_execute, hc, list_fst]; rw [hsv]
  case HW_SIGN => simp only [avp_execute, hc, hw_sign_fst]; rw [hsv]
  case HW_ATTEST => simp only [avp_execute, hc, hw_attest_fst]; rw [hsv]

theorem process_secrets_length (now : Nat) (rand : List Nat) (ctx : Ctx) (j : JsonFields) :
    (avp_process now rand ctx j).1.secrets.length = ctx.secrets.length := by
  show (if (avp_parse_cmd j).1 = RetCode.AVP_OK
        then avp_execute now rand ctx (avp_parse_cmd j).2
        else (ctx, errResp (avp_parse_cmd j).1)).1.secrets.length = ctx.secrets.length
  split
  · exact exec_secrets_length now rand ctx _
  · rfl

theorem runAll_secrets_length :
    ∀ (reqs : List Request) (ctx : Ctx),
      (runAll ctx reqs).secrets.length = ctx.secrets.length := by
  intro reqs
  induction reqs with
  | nil => intro ctx; rfl
  | cons r rs ih =>
    intro ctx
    rw [runAll, ih, process_secrets_length]

end AVP

namespace AVP

/-- Claim C6: with the fixed 32-entry secret table, the number of in-use
entries never exceeds 32 at any quiescent point of any request sequence
and equals the number of names a (session-valid) LIST returns; a STORE of
a new name when all entries are in use fails with `CAPACITY_EXCEEDED` and
returns the context unchanged. -/
theorem C6_capacity (ctx : Ctx) (hlen : ctx.secrets.length = AVP_MAX_SECRETS) :
    countInUse ctx ≤ AVP_MAX_SECRETS ∧
    (∀ reqs : List Request, countInUse (runAll ctx reqs) ≤ AVP_MAX_SECRETS) ∧
    (∀ (now : Nat) (cmd : Cmd), (avp_session_valid now ctx).1 = true →
        (avp_op_list now ctx cmd).2.list_names.length = countInUse ctx) ∧
    (∀ (now : Nat) (cmd : Cmd), (avp_session_valid now ctx).1 = true →
        (∀ s ∈ ctx.secrets, s.in_use = true) →
        find_secret_by_name ctx cmd.name = none →
        avp_op_store now ctx cmd = (ctx, errResp .AVP_ERR_CAPACITY)) := by
  refine ⟨?_, ?_, ?_, ?_⟩
  · rw [← hlen]
    exact countInUseL_le_length ctx.secrets
  · intro reqs
    have h1 := countInUseL_le_length (runAll ctx reqs).secrets
    rw [runAll_secrets_length reqs ctx, hlen] at h1
    exact h1
  · intro now cmd hv
    simp [avp_op_list, hv, sv_true_fixes now ctx hv, listNames_length, countInUse]
  · intro now cmd hv hall hfind
    have hfree : find_free_slot ctx = none := by
      apply findIndex_eq_none
      intro x hx
      rw [hall x hx]
      rfl
    simp only [avp_op_store, hv, if_pos, sv_true_fixes now ctx hv, hfind, hfree]

/-- Witness for C6 at a concrete input: on the full table, LIST reports
exactly `countInUse` names and STORE of the new name `"k"` fails with
`CAPACITY_EXCEEDED` leaving the context unchanged. -/
theorem C6_witness :
    (avp_op_list 5 ctxFull cmdStoreKV).2.list_names.length = countInUse ctxFull ∧
    avp_op_store 5 ctxFull cmdStoreKV = (ctxFull, errResp .AVP_ERR_CAPACITY) :=
  ⟨(C6_capacity ctxFull (by decide)).2.2.1 5 cmdStoreKV (by decide),
   (C6_capacity ctxFull (by decide)).2.2.2 5 cmdStoreKV (by decide) (by decide) (by decide)⟩

end AVP

namespace AVP

theorem CountInv_sv (now : Nat) (ctx : Ctx) (h : CountInv ctx) :
    CountInv (avp_session_valid now ctx).2 := by
  obtain ⟨h1, h2⟩ := h
  have hsv := sv_preserves now ctx
  constructor
  · rw [hsv.1]; exact h1
  · unfold countInUse
    rw [hsv.1, hsv.2.1]
    exact h2

theorem store_preserves_CountInv (now : Nat) (ctx : Ctx) (cmd : Cmd)
    (h : CountInv ctx) : CountInv (avp_op_store now ctx cmd).1 := by
  simp only [avp_op_store]
  split
  case isTrue hv =>
    rw [sv_true_fixes now ctx hv]
    obtain ⟨hlen, hcnt⟩ := h
    split
    · rename_i idx hfind
      obtain ⟨hidx, _⟩ := findIndex_some _ SecretMeta.zero ctx.secrets idx hfind
      constructor
      · simpa [listModify_length] using hlen
      · unfold countInUse
        simp only []
        rw [countInUseL_listModify_preserve ctx.secrets idx
          (fun s => { s with updated_at := now }) (fun x => rfl) hidx]
        exact hcnt
    · rename_i hfind
      split
      · exact ⟨hlen, hcnt⟩
      · rename_i idx hfree
        obtain ⟨hidx, hp⟩ := findIndex_some _ SecretMeta.zero ctx.secrets idx hfree
        have h0 : (ctx.secrets.getD idx SecretMeta.zero).in_use = false := by
          simpa using hp
        have hle : countInUseL ctx.secrets ≤ ctx.secrets.length :=
          countInUseL_le_length ctx.secrets
        have hset := countInUseL_listModify_set ctx.secrets idx
          (fun s =>
            { s with
              name := strTrunc (AVP_MAX_NAME_LEN - 1) cmd.name,
              slot_index := SLOT_SECRETS_START + idx,
              created_at := now,
              in_use := true }) hidx h0 rfl
        have hidx2 : idx < (listModify ctx.secrets idx
            (fun s =>
              { s with
                name := strTrunc (AVP_MAX_NAME_LEN - 1) cmd.name,
                slot_index := SLOT_SECRETS_START + idx,
                created_at := now,
                in_use := true })).length := by
          rw [listModify_length]; exact hidx
        have hkeep := countInUseL_listModify_preserve _ idx
          (fun s => { s with updated_at := now }) (fun x => rfl) hidx2
        constructor
        · simp only [listModify_length]
          exact hlen
        · unfold countInUse at hcnt ⊢
          simp only []
          rw [hkeep, hset]
          rw [hlen] at hle
          unfold AVP_MAX_SECRETS at hle
          omega
  case isFalse hv =>
    exact CountInv_sv now ctx h

theorem delete_preserves_CountInv (now : Nat) (ctx : Ctx) (cmd : Cmd)
    (h : CountInv ctx) : CountInv (avp_op_delete now ctx cmd).1 := by
  simp only [avp_op_delete]
  split
  case isTrue hv =>
    rw [sv_true_fixes now ctx hv]
    obtain ⟨hlen, hcnt⟩ := h
    split
    · exact ⟨hlen, hcnt⟩
    · rename_i idx hfind
      obtain ⟨hidx, hp⟩ := findIndex_some _ SecretMeta.zero ctx.secrets idx hfind
      have h0 : (ctx.secrets.getD idx SecretMeta.zero).in_use = true :=
        ((Bool.and_eq_true _ _).mp hp).1
      have hpos := countInUseL_pos ctx.secrets idx hidx h0
      have hle : countInUseL ctx.secrets ≤ ctx.secrets.length :=
        countInUseL_le_length ctx.secrets
      have hclear := countInUseL_listModify_clear ctx.secrets idx
        (fun _ => SecretMeta.zero) hidx h0 rfl
      constructor
      · simp only [listModify_length]
        exact hlen
      · unfold countInUse at hcnt ⊢
        simp only []
        rw [hlen] at hle
        unfold AVP_MAX_SECRETS at hle
        omega
  case isFalse hv =>
    exact CountInv_sv now ctx h

theorem exec_preserves_CountInv (now : Nat) (rand : List Nat) (ctx : Ctx) (cmd : Cmd)
    (h : CountInv ctx) : CountInv (avp_execute now rand ctx cmd).1 := by
  cases hc : cmd.op
  case UNKNOWN => simpa [avp_execute, hc] using h
  case DISCOVER => simpa [avp_execute, hc, avp_op_discover] using h
  case HW_CHALLENGE => simpa [avp_execute, hc, avp_op_hw_challenge] using h
  case AUTHENTICATE =>
    simp only [avp_execute, hc, avp_op_authenticate]
    obtain ⟨h1, h2⟩ := h
    have hk := auth_keeps pinAcceptSrc now rand ctx cmd
    constructor
    · rw [hk.1]; exact h1
    · unfold countInUse
      rw [hk.1, hk.2]
      exact h2
  case STORE =>
    simp only [avp_execute, hc]
    exact store_preserves_CountInv now ctx cmd h
  case ROTATE =>
    simp only [avp_execute, hc, avp_op_rotate]
    exact store_preserves_CountInv now ctx cmd h
  case DELETE =>
    simp only [avp_execute, hc]
    exact delete_preserves_CountInv now ctx cmd h
  case RETRIEVE =>
    simp only [avp_execute, hc, retrieve_fst]
    exact CountInv_sv now ctx h
  case LIST =>
    simp only [avp_execute, hc, list_fst]
    exact CountInv_sv now ctx h
  case HW_SIGN =>
    simp only [avp_execute, hc, hw_sign_fst]
    exact CountInv_sv now ctx h
  case HW_ATTEST =>
    simp only [avp_execute, hc, hw_attest_fst]
    exact CountInv_sv now ctx h

theorem process_preserves_CountInv (now : Nat) (rand : List Nat) (ctx : Ctx)
    (j : JsonFields) (h : CountInv ctx) : CountInv (avp_process now rand ctx j).1 := by
  show CountInv (if (avp_parse_cmd j).1 = RetCode.AVP_OK
        then avp_execute now rand ctx (avp_parse_cmd j).2
        else (ctx, errResp (avp_parse_cmd j).1)).1
  split
  · exact exec_preserves_CountInv now rand ctx _ h
  · exact h

end AVP

namespace AVP

/-- Claim C10 (implicit): `secret_count` always equals the number of
secret-table entries with `in_use = true`: the equality holds for the
context `avp_init` produces and is preserved by every processed request —
STORE/ROTATE increment the counter exactly when a new entry is allocated,
DELETE decrements it exactly when an entry is cleared, and no other
operation changes it — hence it holds along every request sequence. -/
theorem C10_secret_count_invariant :
    CountInv avp_init ∧
    (∀ (ctx : Ctx), CountInv ctx →
        ∀ (now : Nat) (rand : List Nat) (j : JsonFields),
          CountInv (avp_process now rand ctx j).1) ∧
    (∀ reqs : List Request, CountInv (runAll avp_init reqs)) := by
  have hstep : ∀ (ctx : Ctx), CountInv ctx →
      ∀ (now : Nat) (rand : List Nat) (j : JsonFields),
        CountInv (avp_process now rand ctx j).1 :=
    fun ctx h now rand j => process_preserves_CountInv now rand ctx j h
  have hinit : CountInv avp_init := by decide
  refine ⟨hinit, hstep, ?_⟩
  have hall : ∀ (reqs : List Request) (ctx : Ctx), CountInv ctx →
      CountInv (runAll ctx reqs) := by
    intro reqs
    induction reqs with
    | nil => intro ctx h; exact h
    | cons r rs ih =>
      intro ctx h
      exact ih _ (hstep ctx h r.now r.rand r.fields)
  exact fun reqs => hall reqs avp_init hinit

/-- Witness for C10 at a concrete input: the invariant holds after a
STORE processed on the fresh context. -/
theorem C10_witness :
    CountInv (avp_process 3 [] ctxLive jsonStoreKV).1 :=
  C10_secret_count_invariant.2.1 ctxLive (by decide) 3 [] jsonStoreKV

end AVP
